import Mathlib

/-!
# Verification of the AxiomGlobalEngine diagnostic kernel

Shallow embedding of the pump-diagnostics engine of `src/main_app.py`
(`AxiomGlobalEngine`, lines 33–109).  Python floats are modelled as exact
rationals (`ℚ`); every numeric literal of the source is an exact decimal, so
all formulas carry over verbatim.  Status strings are carried as `String`s;
the one abstraction is that the percentage interpolated into the imbalance
status text (`f"... {pct:.1f}% IMBALANCE"`) is omitted, since no downstream
computation reads it — the classifier only tests whether the substring
`"CRITICAL"` occurs in a status string, which is preserved exactly.
-/

namespace AxiomAudit

/-- Occurrence of `pat` as a contiguous sublist of `s`. -/
def containsSub (pat : List Char) : List Char → Bool
  | [] => pat.isPrefixOf []
  | c :: rest => pat.isPrefixOf (c :: rest) || containsSub pat rest

/-- Python substring test `"CRITICAL" in s` (used by `analyze_pump`,
lines 85–86 of `main_app.py`). -/
def containsCRITICAL (s : String) : Bool :=
  containsSub "CRITICAL".data s.data

/-- The engine object: the four fields set by `AxiomGlobalEngine.__init__`
(lines 34–38). -/
structure AxiomGlobalEngine where
  RATED_POWER : ℚ
  UNIT_COST : ℚ
  CURR : String
  CO2_FACTOR : ℚ
deriving DecidableEq

/-- Source: `AxiomGlobalEngine.__init__` (lines 34–38):
`RATED_POWER = abs(rated_kw) if rated_kw > 0 else 1.0`,
`UNIT_COST = abs(cost_per_unit)`, currency and CO2 factor stored as given. -/
def mkEngine (rated_kw cost_per_unit : ℚ) (currency_symbol : String)
    (co2_factor : ℚ) : AxiomGlobalEngine :=
  { RATED_POWER := if rated_kw > 0 then |rated_kw| else 1
    UNIT_COST := |cost_per_unit|
    CURR := currency_symbol
    CO2_FACTOR := co2_factor }

/-- Voltage classification (lines 41–43). -/
def volt_statusOf (voltage : ℚ) : String :=
  if voltage < 370 then "CRITICAL: UNDER-VOLTAGE"
  else if voltage > 460 then "CRITICAL: SURGE"
  else "STABLE"

/-- Source: `avg_amps = (i1 + i2 + i3) / 3` (line 45). -/
def avg_ampsOf (i1 i2 i3 : ℚ) : ℚ := (i1 + i2 + i3) / 3

/-- Imbalance percentage (lines 46–49): `max |Iₙ − avg| / avg × 100` when
`avg > 0`, else `0.0`. -/
def imbalance_pctOf (i1 i2 i3 : ℚ) : ℚ :=
  if avg_ampsOf i1 i2 i3 > 0 then
    max |i1 - avg_ampsOf i1 i2 i3|
        (max |i2 - avg_ampsOf i1 i2 i3| |i3 - avg_ampsOf i1 i2 i3|)
      / avg_ampsOf i1 i2 i3 * 100
  else 0

/-- Imbalance classification (lines 51–53).  The source initialises the
status to `BALANCED`, overwrites with the WARNING text when `pct > 2.0` and
again with the CRITICAL text when `pct > 5.0`; the net effect is this
three-way split.  The interpolated `{pct:.1f}` figure is omitted (display
only). -/
def imb_statusOf (pct : ℚ) : String :=
  if pct > 5 then "CRITICAL: IMBALANCE"
  else if pct > 2 then "WARNING: IMBALANCE"
  else "BALANCED"

/-- Source: `analyze_energy_health` (lines 40–55): returns
`(volt_status, imb_status, imbalance_pct, avg_amps)`. -/
def analyze_energy_health (voltage i1 i2 i3 : ℚ) : String × String × ℚ × ℚ :=
  (volt_statusOf voltage,
   imb_statusOf (imbalance_pctOf i1 i2 i3),
   imbalance_pctOf i1 i2 i3,
   avg_ampsOf i1 i2 i3)

/-- The voltage clamp at the head of `analyze_pump` (line 58):
`if voltage < 1: voltage = 1.0`. -/
def clampV (v : ℚ) : ℚ := if v < 1 then 1 else v

/-- Source: `real_kw_in = (voltage * avg_amps * pf * 1.732) / 1000.0` (line 61). -/
def real_kw_inOf (voltage avg pf : ℚ) : ℚ := voltage * avg * pf * 1.732 / 1000

/-- Source: `rated_amps_est = (RATED_POWER * 1000) / (voltage * 1.732 * pf)`
(line 62). -/
def rated_amps_estOf (rated voltage pf : ℚ) : ℚ :=
  rated * 1000 / (voltage * 1.732 * pf)

/-- Source: `load_percent = (avg / rated_amps_est) * 100 if rated_amps_est > 0 else 0`
(line 63). -/
def load_percentOf (rated voltage avg pf : ℚ) : ℚ :=
  if rated_amps_estOf rated voltage pf > 0 then
    avg / rated_amps_estOf rated voltage pf * 100
  else 0

/-- Source: `head_m = pressure_bar * 10.197` (line 65). -/
def head_mOf (pressure_bar : ℚ) : ℚ := pressure_bar * 10.197

/-- Source: `est_eff_overall = 0.60` (line 66). -/
def est_eff_overall : ℚ := 0.60

/-- Estimated flow (lines 67–68): back-solved from input power when
`head_m > 1.0`, else `0.0`. -/
def est_flowOf (real_kw head : ℚ) : ℚ :=
  if head > 1 then real_kw * est_eff_overall * 3600 / (head * 9.81) else 0

/-- Motor-efficiency band (lines 70–72). -/
def est_motor_effOf (load : ℚ) : ℚ :=
  if load < 50 then 0.85 else if load > 110 then 0.89 else 0.92

/-- Source: `shaft_power_kw = real_kw_in * est_motor_eff` (line 74). -/
def shaft_power_kwOf (real_kw load : ℚ) : ℚ := real_kw * est_motor_effOf load

/-- Source: `hydraulic_power = (est_flow * head_m * 9.81) / 3600.0` (line 75). -/
def hydraulic_powerOf (flow head : ℚ) : ℚ := flow * head * 9.81 / 3600

/-- Pump efficiency (lines 77–80): `min(99.9, hyd/shaft × 100)` when
`shaft > 0.1`, else `0.0`. -/
def pump_eff_pctOf (hyd shaft : ℚ) : ℚ :=
  if shaft > 0.1 then min 99.9 (hyd / shaft * 100) else 0

/-- Total wire-to-water efficiency (line 82). -/
def total_sys_effOf (hyd real_kw : ℚ) : ℚ :=
  if real_kw > 0 then hyd / real_kw * 100 else 0

/-- The fault classifier (lines 84–91): the if/elif chain over
`(status, reason, severity)`, first match wins.  The final branch's extra
guard `severity == "NORMAL"` in the source is always true when reached,
since reaching the last `elif` means no earlier branch assigned a severity. -/
def classify (volt_status imb_status : String)
    (load pressure flow pump_eff : ℚ) : String × String × String :=
  if containsCRITICAL volt_status then
    ("DANGER: GRID INSTABILITY", volt_status, "CRITICAL")
  else if containsCRITICAL imb_status then
    ("DANGER: PHASE IMBALANCE", "Motor windings degrading.", "CRITICAL")
  else if load < 30 then
    ("CRITICAL: DRY RUN DETECTED",
     "Amperage too low (<30%). Pump likely spinning in air.", "CRITICAL")
  else if load > 65 ∧ pressure < 1.5 then
    ("CRITICAL: BURST PIPE / ZERO HEAD",
     "High Power vs. Low Pressure. Massive hydraulic loss.", "CRITICAL")
  else if pressure > 8 ∧ flow < 2 then
    ("WARNING: BLOCKAGE / DEAD-HEAD",
     "Pressure exceeding safety limits with zero flow.", "WARNING")
  else if load > 105 then
    ("WARNING: MOTOR OVERLOAD", "Thermal risk.", "WARNING")
  else if pump_eff < 45 then
    ("WARNING: POOR EFFICIENCY",
     "Pump hydraulic efficiency is very low. Possible worn impeller.",
     "WARNING")
  else ("OPTIMAL", "System operating within normal parameters.", "NORMAL")

/-- The result record returned by `analyze_pump` (lines 103–109). -/
structure PumpResult where
  kw : ℚ
  flow : ℚ
  cost_mo : ℚ
  savings : ℚ
  co2_ton : ℚ
  status : String
  reason : String
  severity : String
  head : ℚ
  load_pct : ℚ
  currency : String
  volt_status : String
  imb_status : String
  imb_pct : ℚ
  input_volts : ℚ
  eff_motor : ℚ
  eff_pump : ℚ
  eff_total : ℚ
deriving DecidableEq

/-- Source: `AxiomGlobalEngine.analyze_pump` (lines 57–109), assembled from the
helpers above in the source's order.  `pf` defaults to `0.85` at every call
site in the repository; it is passed explicitly here (see `default_pf`). -/
def analyze_pump (self : AxiomGlobalEngine)
    (voltage0 i1 i2 i3 pressure_bar pf : ℚ) : PumpResult :=
  let voltage := clampV voltage0
  let ehr := analyze_energy_health voltage i1 i2 i3
  let volt_status := ehr.1
  let imb_status := ehr.2.1
  let imb_pct := ehr.2.2.1
  let avg_amps := ehr.2.2.2
  let real_kw_in := real_kw_inOf voltage avg_amps pf
  let load_percent := load_percentOf self.RATED_POWER voltage avg_amps pf
  let head_m := head_mOf pressure_bar
  let est_flow := est_flowOf real_kw_in head_m
  let est_motor_eff := est_motor_effOf load_percent
  let shaft_power_kw := real_kw_in * est_motor_eff
  let hydraulic_power := hydraulic_powerOf est_flow head_m
  let pump_eff_pct := pump_eff_pctOf hydraulic_power shaft_power_kw
  let total_sys_eff := total_sys_effOf hydraulic_power real_kw_in
  let srs := classify volt_status imb_status load_percent pressure_bar
    est_flow pump_eff_pct
  let cost_per_month := real_kw_in * self.UNIT_COST * 24 * 30
  let co2_per_month := real_kw_in * self.CO2_FACTOR * 24 * 30 / 1000
  let potential_savings :=
    if total_sys_eff < 50 ∧ total_sys_eff > 0 then
      max 0 (cost_per_month - hydraulic_power / 0.60 / 0.92 * self.UNIT_COST * 24 * 30)
    else if srs.2.2 ≠ "NORMAL" then cost_per_month * 0.25
    else 0
  { kw := real_kw_in, flow := est_flow, cost_mo := cost_per_month
    savings := potential_savings, co2_ton := co2_per_month
    status := srs.1, reason := srs.2.1, severity := srs.2.2
    head := head_m, load_pct := load_percent, currency := self.CURR
    volt_status := volt_status, imb_status := imb_status, imb_pct := imb_pct
    input_volts := voltage, eff_motor := est_motor_eff * 100
    eff_pump := pump_eff_pct, eff_total := total_sys_eff }

/-- The default power factor of `analyze_pump` (`pf: float = 0.85`,
line 57). -/
def default_pf : ℚ := 0.85

/-- A per-invocation gauge reading (§3 of the spec: `GaugeReading`). -/
structure GaugeReading where
  voltage : ℚ
  i1 : ℚ
  i2 : ℚ
  i3 : ℚ
  pressure_bar : ℚ
  pf : ℚ
deriving DecidableEq

/-- Source: `diagnose` as a state-threading call: the Python method reads
`self.RATED_POWER`, `self.UNIT_COST`, `self.CURR`, `self.CO2_FACTOR` and
assigns to no attribute of `self`, so the engine comes back unchanged. -/
def diagnose (e : AxiomGlobalEngine) (g : GaugeReading) :
    PumpResult × AxiomGlobalEngine :=
  (analyze_pump e g.voltage g.i1 g.i2 g.i3 g.pressure_bar g.pf, e)

/-! Standalone names for the intermediate quantities of `analyze_pump`, as
functions of the call's inputs; each is definitionally the corresponding
local of the source. -/

/-- Source: `real_kw_in` as `analyze_pump` computes it. -/
def kwE (v i1 i2 i3 pf : ℚ) : ℚ :=
  real_kw_inOf (clampV v) (avg_ampsOf i1 i2 i3) pf

/-- Source: `load_percent` as `analyze_pump` computes it. -/
def loadE (e : AxiomGlobalEngine) (v i1 i2 i3 pf : ℚ) : ℚ :=
  load_percentOf e.RATED_POWER (clampV v) (avg_ampsOf i1 i2 i3) pf

/-- Source: `est_flow` as `analyze_pump` computes it. -/
def flowE (v i1 i2 i3 p pf : ℚ) : ℚ :=
  est_flowOf (kwE v i1 i2 i3 pf) (head_mOf p)

/-- Source: `shaft_power_kw` as `analyze_pump` computes it. -/
def shaftE (e : AxiomGlobalEngine) (v i1 i2 i3 pf : ℚ) : ℚ :=
  shaft_power_kwOf (kwE v i1 i2 i3 pf) (loadE e v i1 i2 i3 pf)

/-- Source: `hydraulic_power` as `analyze_pump` computes it. -/
def hydE (v i1 i2 i3 p pf : ℚ) : ℚ :=
  hydraulic_powerOf (flowE v i1 i2 i3 p pf) (head_mOf p)

/-- Source: `pump_eff_pct` as `analyze_pump` computes it. -/
def peffE (e : AxiomGlobalEngine) (v i1 i2 i3 p pf : ℚ) : ℚ :=
  pump_eff_pctOf (hydE v i1 i2 i3 p pf) (shaftE e v i1 i2 i3 pf)

/-- Source: `total_sys_eff` as `analyze_pump` computes it. -/
def teffE (v i1 i2 i3 p pf : ℚ) : ℚ :=
  total_sys_effOf (hydE v i1 i2 i3 p pf) (kwE v i1 i2 i3 pf)

/-! ## Basic lemmas -/

lemma cc_STABLE : containsCRITICAL "STABLE" = false := by decide

lemma cc_UNDER : containsCRITICAL "CRITICAL: UNDER-VOLTAGE" = true := by decide

lemma cc_SURGE : containsCRITICAL "CRITICAL: SURGE" = true := by decide

lemma cc_BALANCED : containsCRITICAL "BALANCED" = false := by decide

lemma cc_IMB_WARNING : containsCRITICAL "WARNING: IMBALANCE" = false := by decide

lemma cc_IMB_CRITICAL : containsCRITICAL "CRITICAL: IMBALANCE" = true := by decide

/-! Projections of `analyze_pump`: each field equals the corresponding
intermediate quantity (all definitional). -/

lemma ap_kw (e : AxiomGlobalEngine) (v i1 i2 i3 p pf : ℚ) :
    (analyze_pump e v i1 i2 i3 p pf).kw = kwE v i1 i2 i3 pf := rfl

lemma ap_flow (e : AxiomGlobalEngine) (v i1 i2 i3 p pf : ℚ) :
    (analyze_pump e v i1 i2 i3 p pf).flow = flowE v i1 i2 i3 p pf := rfl

lemma ap_head (e : AxiomGlobalEngine) (v i1 i2 i3 p pf : ℚ) :
    (analyze_pump e v i1 i2 i3 p pf).head = head_mOf p := rfl

lemma ap_load (e : AxiomGlobalEngine) (v i1 i2 i3 p pf : ℚ) :
    (analyze_pump e v i1 i2 i3 p pf).load_pct = loadE e v i1 i2 i3 pf := rfl

lemma ap_imb_pct (e : AxiomGlobalEngine) (v i1 i2 i3 p pf : ℚ) :
    (analyze_pump e v i1 i2 i3 p pf).imb_pct = imbalance_pctOf i1 i2 i3 := rfl

lemma ap_imb_status (e : AxiomGlobalEngine) (v i1 i2 i3 p pf : ℚ) :
    (analyze_pump e v i1 i2 i3 p pf).imb_status
      = imb_statusOf (imbalance_pctOf i1 i2 i3) := rfl

lemma ap_volt_status (e : AxiomGlobalEngine) (v i1 i2 i3 p pf : ℚ) :
    (analyze_pump e v i1 i2 i3 p pf).volt_status = volt_statusOf (clampV v) := rfl

lemma ap_input_volts (e : AxiomGlobalEngine) (v i1 i2 i3 p pf : ℚ) :
    (analyze_pump e v i1 i2 i3 p pf).input_volts = clampV v := rfl

lemma ap_eff_pump (e : AxiomGlobalEngine) (v i1 i2 i3 p pf : ℚ) :
    (analyze_pump e v i1 i2 i3 p pf).eff_pump = peffE e v i1 i2 i3 p pf := rfl

lemma ap_eff_total (e : AxiomGlobalEngine) (v i1 i2 i3 p pf : ℚ) :
    (analyze_pump e v i1 i2 i3 p pf).eff_total = teffE v i1 i2 i3 p pf := rfl

lemma ap_status (e : AxiomGlobalEngine) (v i1 i2 i3 p pf : ℚ) :
    (analyze_pump e v i1 i2 i3 p pf).status
      = (classify (volt_statusOf (clampV v)) (imb_statusOf (imbalance_pctOf i1 i2 i3))
          (loadE e v i1 i2 i3 pf) p (flowE v i1 i2 i3 p pf)
          (peffE e v i1 i2 i3 p pf)).1 := rfl

lemma ap_severity (e : AxiomGlobalEngine) (v i1 i2 i3 p pf : ℚ) :
    (analyze_pump e v i1 i2 i3 p pf).severity
      = (classify (volt_statusOf (clampV v)) (imb_statusOf (imbalance_pctOf i1 i2 i3))
          (loadE e v i1 i2 i3 pf) p (flowE v i1 i2 i3 p pf)
          (peffE e v i1 i2 i3 p pf)).2.2 := rfl

lemma ap_cost_mo (e : AxiomGlobalEngine) (v i1 i2 i3 p pf : ℚ) :
    (analyze_pump e v i1 i2 i3 p pf).cost_mo
      = kwE v i1 i2 i3 pf * e.UNIT_COST * 24 * 30 := rfl

lemma ap_co2_ton (e : AxiomGlobalEngine) (v i1 i2 i3 p pf : ℚ) :
    (analyze_pump e v i1 i2 i3 p pf).co2_ton
      = kwE v i1 i2 i3 pf * e.CO2_FACTOR * 24 * 30 / 1000 := rfl

lemma ap_savings (e : AxiomGlobalEngine) (v i1 i2 i3 p pf : ℚ) :
    (analyze_pump e v i1 i2 i3 p pf).savings
      = if teffE v i1 i2 i3 p pf < 50 ∧ teffE v i1 i2 i3 p pf > 0 then
          max 0 (kwE v i1 i2 i3 pf * e.UNIT_COST * 24 * 30
            - hydE v i1 i2 i3 p pf / 0.60 / 0.92 * e.UNIT_COST * 24 * 30)
        else if (classify (volt_statusOf (clampV v))
            (imb_statusOf (imbalance_pctOf i1 i2 i3)) (loadE e v i1 i2 i3 pf) p
            (flowE v i1 i2 i3 p pf) (peffE e v i1 i2 i3 p pf)).2.2 ≠ "NORMAL" then
          kwE v i1 i2 i3 pf * e.UNIT_COST * 24 * 30 * 0.25
        else 0 := rfl

/-! Structural facts about the hydraulic chain. -/

/-- Substituting the back-solved flow into the hydraulic-power formula gives
back `real_kw_in × 0.60` whenever the head guard passed, and `0` otherwise. -/
lemma hyd_eq (k h : ℚ) :
    hydraulic_powerOf (est_flowOf k h) h
      = if h > 1 then k * est_eff_overall else 0 := by
  unfold hydraulic_powerOf est_flowOf
  split
  · rename_i h1
    have hh : h ≠ 0 := by linarith
    field_simp
    ring
  · simp

lemma motor_eff_cases (l : ℚ) :
    est_motor_effOf l = 0.85 ∨ est_motor_effOf l = 0.89 ∨ est_motor_effOf l = 0.92 := by
  unfold est_motor_effOf
  split
  · exact Or.inl rfl
  split
  · exact Or.inr (Or.inl rfl)
  · exact Or.inr (Or.inr rfl)

lemma motor_eff_pos (l : ℚ) : 0 < est_motor_effOf l := by
  rcases motor_eff_cases l with h | h | h <;> rw [h] <;> norm_num

/-- Source: `60 / motor_eff` over the three bands: `1200/17`, `6000/89`, `1500/23`;
each exceeds 45 and stays below the 99.9 clamp. -/
lemma sixty_div_bounds (l : ℚ) :
    45 < 60 / est_motor_effOf l ∧ 60 / est_motor_effOf l < 99.9 := by
  rcases motor_eff_cases l with h | h | h <;> rw [h] <;> norm_num

/-- When the head guard passed and the shaft-power guard passed, the pump
efficiency collapses to `60 / motor_eff` (the clamp never binds). -/
lemma pump_eff_value (k l h : ℚ) (hh : h > 1)
    (hs : shaft_power_kwOf k l > 0.1) :
    pump_eff_pctOf (hydraulic_powerOf (est_flowOf k h) h) (shaft_power_kwOf k l)
      = 60 / est_motor_effOf l := by
  have he : 0 < est_motor_effOf l := motor_eff_pos l
  have hk : 0 < k := by
    by_contra hk0
    push_neg at hk0
    have : k * est_motor_effOf l ≤ 0 := mul_nonpos_of_nonpos_of_nonneg hk0 he.le
    unfold shaft_power_kwOf at hs
    linarith
  unfold pump_eff_pctOf
  rw [if_pos hs, hyd_eq, if_pos hh]
  have hval : k * est_eff_overall / shaft_power_kwOf k l * 100
      = 60 / est_motor_effOf l := by
    unfold shaft_power_kwOf est_eff_overall
    field_simp
    ring
  rw [hval]
  exact min_eq_right (sixty_div_bounds l).2.le

/-- The pump efficiency is either `0` (guards) or `60 / motor_eff`. -/
lemma pump_eff_dichotomy (k l h : ℚ) :
    pump_eff_pctOf (hydraulic_powerOf (est_flowOf k h) h) (shaft_power_kwOf k l) = 0 ∨
    (h > 1 ∧ shaft_power_kwOf k l > 0.1 ∧
      pump_eff_pctOf (hydraulic_powerOf (est_flowOf k h) h) (shaft_power_kwOf k l)
        = 60 / est_motor_effOf l) := by
  by_cases hs : shaft_power_kwOf k l > 0.1
  · by_cases hh : h > 1
    · exact Or.inr ⟨hh, hs, pump_eff_value k l h hh hs⟩
    · left
      unfold pump_eff_pctOf
      rw [if_pos hs, hyd_eq, if_neg hh]
      norm_num
  · left
    unfold pump_eff_pctOf
    rw [if_neg hs]

/-- Reaching the `POOR EFFICIENCY` outcome forces its guard `pump_eff < 45`. -/
lemma classify_poor (vs is : String) (load p flow peff : ℚ)
    (h : (classify vs is load p flow peff).1 = "WARNING: POOR EFFICIENCY") :
    peff < 45 := by
  unfold classify at h
  simp only [apply_ite Prod.fst] at h
  split at h
  · exact absurd h (by decide)
  split at h
  · exact absurd h (by decide)
  split at h
  · exact absurd h (by decide)
  split at h
  · exact absurd h (by decide)
  split at h
  · exact absurd h (by decide)
  split at h
  · exact absurd h (by decide)
  split at h
  · assumption
  · exact absurd h (by decide)

/-! ## Claims -/

/-- Claim **C4** (counterexample): at phase currents `(51, 50, 49)` the average
current is `50 > 0` and the imbalance is exactly `2.0 %`, yet
`analyze_energy_health` classifies it `BALANCED`, not `WARNING` — the
`2.0 %` endpoint is excluded, refuting the claim's inclusive reading. -/
theorem C4_endpoint_two_is_balanced :
    0 < avg_ampsOf 51 50 49 ∧
    (analyze_energy_health 415 51 50 49).2.2.1 = 2 ∧
    (analyze_energy_health 415 51 50 49).2.1 = "BALANCED" := by
  norm_num [analyze_energy_health, imbalance_pctOf, avg_ampsOf, imb_statusOf]

/-- Claim **C4** (amended): for readings with positive average current the
imbalance status is `CRITICAL` when the percentage exceeds 5.0, `WARNING`
when it lies strictly between 2.0 (exclusive) and 5.0 (inclusive), and
`BALANCED` when it is at most 2.0 — the 2.0 endpoint classifies as
`BALANCED`, not `WARNING`. -/
theorem C4_imbalance_classification (v i1 i2 i3 : ℚ)
    (hpos : 0 < avg_ampsOf i1 i2 i3) :
    ((analyze_energy_health v i1 i2 i3).2.2.1 > 5 →
      (analyze_energy_health v i1 i2 i3).2.1 = "CRITICAL: IMBALANCE") ∧
    (2 < (analyze_energy_health v i1 i2 i3).2.2.1 ∧
        (analyze_energy_health v i1 i2 i3).2.2.1 ≤ 5 →
      (analyze_energy_health v i1 i2 i3).2.1 = "WARNING: IMBALANCE") ∧
    ((analyze_energy_health v i1 i2 i3).2.2.1 ≤ 2 →
      (analyze_energy_health v i1 i2 i3).2.1 = "BALANCED") := by
  refine ⟨fun h => ?_, fun h => ?_, fun h => ?_⟩ <;>
    simp only [analyze_energy_health, imb_statusOf] at h ⊢
  · rw [if_pos h]
  · rw [if_neg (not_lt.mpr h.2), if_pos h.1]
  · rw [if_neg (not_lt.mpr (h.trans (by norm_num))), if_neg (not_lt.mpr h)]

/-- Claim **C4** witness: currents `(52, 50, 48)` give a positive average and an
imbalance of exactly 4 %, classified `WARNING`. -/
theorem C4_imbalance_classification_witness :
    (analyze_energy_health 415 52 50 48).2.1 = "WARNING: IMBALANCE" := by
  have h := C4_imbalance_classification 415 52 50 48 (by norm_num [avg_ampsOf])
  exact h.2.1 (by norm_num [analyze_energy_health, imbalance_pctOf, avg_ampsOf])

/-- Claim **C7** (confirmed): monthly cost is `real_kW × UNIT_COST × 24 × 30`; the
potential savings are `max 0 (cost − optimal_cost)` with
`optimal_kW = (hydraulic_power / 0.60) / 0.92` whenever the wire-to-water
efficiency lies strictly between 0 and 50 %, else `cost × 0.25` when the
severity is not `NORMAL`, else `0`. -/
theorem C7_savings_formula (e : AxiomGlobalEngine) (v i1 i2 i3 p pf : ℚ) :
    (analyze_pump e v i1 i2 i3 p pf).cost_mo
      = (analyze_pump e v i1 i2 i3 p pf).kw * e.UNIT_COST * 24 * 30 ∧
    (analyze_pump e v i1 i2 i3 p pf).savings
      = if 0 < (analyze_pump e v i1 i2 i3 p pf).eff_total ∧
            (analyze_pump e v i1 i2 i3 p pf).eff_total < 50 then
          max 0 ((analyze_pump e v i1 i2 i3 p pf).cost_mo
            - hydraulic_powerOf (analyze_pump e v i1 i2 i3 p pf).flow
                (analyze_pump e v i1 i2 i3 p pf).head / 0.60 / 0.92
              * e.UNIT_COST * 24 * 30)
        else if (analyze_pump e v i1 i2 i3 p pf).severity ≠ "NORMAL" then
          (analyze_pump e v i1 i2 i3 p pf).cost_mo * 0.25
        else 0 := by
  refine ⟨rfl, ?_⟩
  rw [ap_savings, ap_eff_total, ap_cost_mo, ap_severity, ap_flow, ap_head]
  exact if_congr and_comm rfl rfl

/-- Claim **C8** (confirmed): `diagnose` is deterministic and stateless — a second
invocation on identical inputs (sequenced through the engine returned by the
first) yields an identical result record, and both invocations hand back the
configuration unchanged. -/
theorem C8_stateless (e : AxiomGlobalEngine) (g : GaugeReading) :
    (diagnose e g).1 = (diagnose (diagnose e g).2 g).1 ∧
    (diagnose e g).2 = e ∧
    (diagnose (diagnose e g).2 g).2 = e :=
  ⟨rfl, rfl, rfl⟩

/-- Claim **C1** (counterexample): at `voltage = 415`, currents `(10,10,10)`,
`rated_kw = 30`, `pressure = 4.2`, the load is below 30 %, neither status
contains CRITICAL, and the dry-run branch fires — but the reported estimated
flow is NOT `0`: the classifier never touches `est_flow`, so the formula's
positive value (≈ 31.4 m³/h) is returned. -/
theorem C1_dry_run_flow_not_zero :
    (analyze_pump (mkEngine 30 280 "Tsh" (2/5)) 415 10 10 10 (21/5) default_pf).load_pct < 30 ∧
    containsCRITICAL
      (analyze_pump (mkEngine 30 280 "Tsh" (2/5)) 415 10 10 10 (21/5) default_pf).volt_status
      = false ∧
    containsCRITICAL
      (analyze_pump (mkEngine 30 280 "Tsh" (2/5)) 415 10 10 10 (21/5) default_pf).imb_status
      = false ∧
    (analyze_pump (mkEngine 30 280 "Tsh" (2/5)) 415 10 10 10 (21/5) default_pf).status
      = "CRITICAL: DRY RUN DETECTED" ∧
    (analyze_pump (mkEngine 30 280 "Tsh" (2/5)) 415 10 10 10 (21/5) default_pf).severity
      = "CRITICAL" ∧
    (analyze_pump (mkEngine 30 280 "Tsh" (2/5)) 415 10 10 10 (21/5) default_pf).flow ≠ 0 := by
  norm_num [analyze_pump, analyze_energy_health, volt_statusOf, imb_statusOf,
    imbalance_pctOf, avg_ampsOf, clampV, real_kw_inOf, rated_amps_estOf,
    load_percentOf, head_mOf, est_eff_overall, est_flowOf, est_motor_effOf,
    shaft_power_kwOf, hydraulic_powerOf, pump_eff_pctOf, total_sys_effOf,
    classify, mkEngine, default_pf, cc_STABLE, cc_BALANCED]

/-- Claim **C1** (amended): when the computed load percentage is below 30 and
neither the voltage status nor the imbalance status contains CRITICAL,
`analyze_pump` returns status `CRITICAL: DRY RUN DETECTED` with severity
CRITICAL, and the reported estimated flow keeps the flow formula's value
(zero only via the `head ≤ 1` guard) — it is not forced to 0. -/
theorem C1_dry_run (e : AxiomGlobalEngine) (v i1 i2 i3 p pf : ℚ)
    (hload : loadE e v i1 i2 i3 pf < 30)
    (hv : containsCRITICAL (volt_statusOf (clampV v)) = false)
    (hi : containsCRITICAL (imb_statusOf (imbalance_pctOf i1 i2 i3)) = false) :
    (analyze_pump e v i1 i2 i3 p pf).status = "CRITICAL: DRY RUN DETECTED" ∧
    (analyze_pump e v i1 i2 i3 p pf).severity = "CRITICAL" ∧
    (analyze_pump e v i1 i2 i3 p pf).flow = flowE v i1 i2 i3 p pf := by
  refine ⟨?_, ?_, rfl⟩
  · rw [ap_status]
    unfold classify
    simp only [hv, hi, Bool.false_eq_true, if_false]
    rw [if_pos hload]
  · rw [ap_severity]
    unfold classify
    simp only [hv, hi, Bool.false_eq_true, if_false]
    rw [if_pos hload]

/-- Claim **C1** witness: the dry-run scenario of the claim
(`415 V`, `(10,10,10) A`, `rated 30 kW`, `4.2 bar`). -/
theorem C1_dry_run_witness :
    (analyze_pump (mkEngine 30 280 "Tsh" (2/5)) 415 10 10 10 (21/5) default_pf).severity
      = "CRITICAL" := by
  have h := C1_dry_run (mkEngine 30 280 "Tsh" (2/5)) 415 10 10 10 (21/5) default_pf
    (by norm_num [loadE, load_percentOf, rated_amps_estOf, clampV, avg_ampsOf,
      mkEngine, default_pf])
    (by norm_num [volt_statusOf, clampV, cc_STABLE])
    (by norm_num [imb_statusOf, imbalance_pctOf, avg_ampsOf, cc_BALANCED])
  exact h.2.1

/-- Claim **C3** (counterexample): strictly negative phase currents give a
non-positive average; the imbalance percentage is clamped to 0 as claimed,
but the estimated flow is NOT 0 — it comes out strictly negative
(≈ −31.4 m³/h at `(−10,−10,−10) A`, 4.2 bar). -/
theorem C3_negative_current_negative_flow :
    avg_ampsOf (-10) (-10) (-10) ≤ 0 ∧
    (analyze_pump (mkEngine 30 280 "Tsh" (2/5)) 415 (-10) (-10) (-10) (21/5) default_pf).imb_pct
      = 0 ∧
    (analyze_pump (mkEngine 30 280 "Tsh" (2/5)) 415 (-10) (-10) (-10) (21/5) default_pf).flow
      < 0 := by
  norm_num [analyze_pump, analyze_energy_health, volt_statusOf, imb_statusOf,
    imbalance_pctOf, avg_ampsOf, clampV, real_kw_inOf, rated_amps_estOf,
    load_percentOf, head_mOf, est_eff_overall, est_flowOf, est_motor_effOf,
    shaft_power_kwOf, hydraulic_powerOf, pump_eff_pctOf, total_sys_effOf,
    classify, mkEngine, default_pf, cc_STABLE, cc_BALANCED]

/-- Claim **C3** (amended): malformed numeric inputs are clamped, never rejected —
a rated power ≤ 0 is replaced by the default 1.0, an input voltage < 1 is
replaced by 1.0 before any computation, and a non-positive average phase
current yields an imbalance percentage of 0; the estimated flow is exactly 0
when the average current is zero, but a strictly negative average current
propagates to a negative (not zero) flow. -/
theorem C3_input_clamping (rated cost : ℚ) (curr : String)
    (co2 v i1 i2 i3 p pf : ℚ) :
    (rated ≤ 0 → (mkEngine rated cost curr co2).RATED_POWER = 1) ∧
    (v < 1 →
      (analyze_pump (mkEngine rated cost curr co2) v i1 i2 i3 p pf).input_volts = 1) ∧
    (avg_ampsOf i1 i2 i3 ≤ 0 →
      (analyze_pump (mkEngine rated cost curr co2) v i1 i2 i3 p pf).imb_pct = 0) ∧
    (avg_ampsOf i1 i2 i3 = 0 →
      (analyze_pump (mkEngine rated cost curr co2) v i1 i2 i3 p pf).flow = 0) := by
  refine ⟨fun h => ?_, fun h => ?_, fun h => ?_, fun h => ?_⟩
  · unfold mkEngine
    rw [if_neg (not_lt.mpr h)]
  · rw [ap_input_volts]
    unfold clampV
    rw [if_pos h]
  · rw [ap_imb_pct]
    unfold imbalance_pctOf
    rw [if_neg (not_lt.mpr h)]
  · rw [ap_flow]
    unfold flowE kwE real_kw_inOf
    rw [h]
    unfold est_flowOf
    split <;> simp

/-- Claim **C3** witness: `rated_kw = −5` is stored as 1.0, `voltage = 0` is
clamped to 1.0, and all-zero currents give zero imbalance and zero flow. -/
theorem C3_input_clamping_witness :
    (mkEngine (-5) 280 "Tsh" (2/5)).RATED_POWER = 1 ∧
    (analyze_pump (mkEngine (-5) 280 "Tsh" (2/5)) 0 0 0 0 (21/5) default_pf).input_volts = 1 ∧
    (analyze_pump (mkEngine (-5) 280 "Tsh" (2/5)) 0 0 0 0 (21/5) default_pf).imb_pct = 0 ∧
    (analyze_pump (mkEngine (-5) 280 "Tsh" (2/5)) 0 0 0 0 (21/5) default_pf).flow = 0 := by
  have h := C3_input_clamping (-5) 280 "Tsh" (2/5) 0 0 0 0 (21/5) default_pf
  exact ⟨h.1 (by norm_num), h.2.1 (by norm_num),
    h.2.2.1 (by norm_num [avg_ampsOf]), h.2.2.2 (by norm_num [avg_ampsOf])⟩

/-- Claim **C5** (counterexample): at `pressure = 9` with very low currents
`(1,1,1) A` on a 30 kW motor, the estimated flow is below 2 m³/h, yet
`analyze_pump` reports `CRITICAL: DRY RUN DETECTED` (severity CRITICAL), not
`WARNING: BLOCKAGE / DEAD-HEAD` — the dry-run rule precedes the blockage
rule whenever the low current also drives the load below 30 %. -/
theorem C5_low_current_preempted_by_dry_run :
    (analyze_pump (mkEngine 30 280 "Tsh" (2/5)) 415 1 1 1 9 default_pf).flow < 2 ∧
    (analyze_pump (mkEngine 30 280 "Tsh" (2/5)) 415 1 1 1 9 default_pf).status
      = "CRITICAL: DRY RUN DETECTED" ∧
    (analyze_pump (mkEngine 30 280 "Tsh" (2/5)) 415 1 1 1 9 default_pf).severity
      = "CRITICAL" := by
  norm_num [analyze_pump, analyze_energy_health, volt_statusOf, imb_statusOf,
    imbalance_pctOf, avg_ampsOf, clampV, real_kw_inOf, rated_amps_estOf,
    load_percentOf, head_mOf, est_eff_overall, est_flowOf, est_motor_effOf,
    shaft_power_kwOf, hydraulic_powerOf, pump_eff_pctOf, total_sys_effOf,
    classify, mkEngine, default_pf, cc_STABLE, cc_BALANCED]

/-- Claim **C5** (amended): a reading with pressure above 8 bar and estimated flow
below 2 m³/h is reported as `WARNING: BLOCKAGE / DEAD-HEAD` with severity
WARNING, provided no higher-precedence rule fires first — i.e. neither
status contains CRITICAL and the load percentage is not below 30 (the
burst-pipe rule cannot fire since the pressure exceeds 1.5 bar). -/
theorem C5_blockage (e : AxiomGlobalEngine) (v i1 i2 i3 p pf : ℚ)
    (hv : containsCRITICAL (volt_statusOf (clampV v)) = false)
    (hi : containsCRITICAL (imb_statusOf (imbalance_pctOf i1 i2 i3)) = false)
    (hload : ¬ loadE e v i1 i2 i3 pf < 30)
    (hp : p > 8)
    (hflow : flowE v i1 i2 i3 p pf < 2) :
    (analyze_pump e v i1 i2 i3 p pf).status = "WARNING: BLOCKAGE / DEAD-HEAD" ∧
    (analyze_pump e v i1 i2 i3 p pf).severity = "WARNING" := by
  constructor
  · rw [ap_status]
    unfold classify
    simp only [hv, hi, Bool.false_eq_true, if_false]
    rw [if_neg hload, if_neg (fun hc => absurd hc.2 (by linarith)),
      if_pos ⟨hp, hflow⟩]
  · rw [ap_severity]
    unfold classify
    simp only [hv, hi, Bool.false_eq_true, if_false]
    rw [if_neg hload, if_neg (fun hc => absurd hc.2 (by linarith)),
      if_pos ⟨hp, hflow⟩]

/-- Claim **C5** witness: on a 1 kW motor at 415 V, `(1,1,1) A` and 9 bar the load
is ≈ 61 % (no dry run) while the flow is ≈ 1.47 m³/h, so the blockage rule
fires. -/
theorem C5_blockage_witness :
    (analyze_pump (mkEngine 1 280 "Tsh" (2/5)) 415 1 1 1 9 default_pf).status
      = "WARNING: BLOCKAGE / DEAD-HEAD" := by
  have h := C5_blockage (mkEngine 1 280 "Tsh" (2/5)) 415 1 1 1 9 default_pf
    (by norm_num [volt_statusOf, clampV, cc_STABLE])
    (by norm_num [imb_statusOf, imbalance_pctOf, avg_ampsOf, cc_BALANCED])
    (by norm_num [loadE, load_percentOf, rated_amps_estOf, clampV, avg_ampsOf,
      mkEngine, default_pf])
    (by norm_num)
    (by norm_num [flowE, est_flowOf, kwE, real_kw_inOf, clampV, avg_ampsOf,
      head_mOf, est_eff_overall, default_pf])
  exact h.1

/-- Claim **C2** (counterexample): on the canonical fixture
(`rated 30 kW, 415 V, (55,54,56) A, 4.2 bar, pf 0.85`) the engine's own
formula gives `real_kW = 33.602965` (not ≈ 39.5: that figure drops the power
factor) and `load% = 112.00988…` (not ≈ 95), and the severity is WARNING via
the `load% > 105` motor-overload rule, not the pump-efficiency threshold. -/
theorem C2_fixture_refutes_quoted_numbers :
    (analyze_pump (mkEngine 30 280 "Tsh" (2/5)) 415 55 54 56 (21/5) default_pf).kw
      = 6720593/200000 ∧
    (analyze_pump (mkEngine 30 280 "Tsh" (2/5)) 415 55 54 56 (21/5) default_pf).kw < 34 ∧
    (analyze_pump (mkEngine 30 280 "Tsh" (2/5)) 415 55 54 56 (21/5) default_pf).load_pct
      = 6720593/60000 ∧
    (analyze_pump (mkEngine 30 280 "Tsh" (2/5)) 415 55 54 56 (21/5) default_pf).load_pct
      > 110 ∧
    (analyze_pump (mkEngine 30 280 "Tsh" (2/5)) 415 55 54 56 (21/5) default_pf).status
      = "WARNING: MOTOR OVERLOAD" := by
  norm_num [analyze_pump, analyze_energy_health, volt_statusOf, imb_statusOf,
    imbalance_pctOf, avg_ampsOf, clampV, real_kw_inOf, rated_amps_estOf,
    load_percentOf, head_mOf, est_eff_overall, est_flowOf, est_motor_effOf,
    shaft_power_kwOf, hydraulic_powerOf, pump_eff_pctOf, total_sys_effOf,
    classify, mkEngine, default_pf, cc_STABLE, cc_BALANCED]

/-- Claim **C2** (amended): on the canonical fixture the engine returns imbalance
`20/11 ≈ 1.8 %` classified BALANCED, real input power
`6720593/200000 ≈ 33.6 kW`, motor load `6720593/60000 ≈ 112 %`, head
`214137/5000 ≈ 42.8 m`, and severity WARNING with status
`WARNING: MOTOR OVERLOAD` (the motor-overload rule, not the pump-efficiency
threshold). -/
theorem C2_fixture_characterization :
    (analyze_pump (mkEngine 30 280 "Tsh" (2/5)) 415 55 54 56 (21/5) default_pf).imb_pct
      = 20/11 ∧
    (analyze_pump (mkEngine 30 280 "Tsh" (2/5)) 415 55 54 56 (21/5) default_pf).imb_status
      = "BALANCED" ∧
    (analyze_pump (mkEngine 30 280 "Tsh" (2/5)) 415 55 54 56 (21/5) default_pf).kw
      = 6720593/200000 ∧
    (analyze_pump (mkEngine 30 280 "Tsh" (2/5)) 415 55 54 56 (21/5) default_pf).load_pct
      = 6720593/60000 ∧
    (analyze_pump (mkEngine 30 280 "Tsh" (2/5)) 415 55 54 56 (21/5) default_pf).head
      = 214137/5000 ∧
    (analyze_pump (mkEngine 30 280 "Tsh" (2/5)) 415 55 54 56 (21/5) default_pf).severity
      = "WARNING" ∧
    (analyze_pump (mkEngine 30 280 "Tsh" (2/5)) 415 55 54 56 (21/5) default_pf).status
      = "WARNING: MOTOR OVERLOAD" := by
  norm_num [analyze_pump, analyze_energy_health, volt_statusOf, imb_statusOf,
    imbalance_pctOf, avg_ampsOf, clampV, real_kw_inOf, rated_amps_estOf,
    load_percentOf, head_mOf, est_eff_overall, est_flowOf, est_motor_effOf,
    shaft_power_kwOf, hydraulic_powerOf, pump_eff_pctOf, total_sys_effOf,
    classify, mkEngine, default_pf, cc_STABLE, cc_BALANCED]

/-- Claim **C6** (confirmed): for all inputs the imbalance percentage is
non-negative and the pump efficiency lies in `[0, 99.9]`; moreover it equals
`min 99.9 (hydraulic / shaft × 100)` exactly when the shaft power exceeds
0.1 kW, and is exactly 0 otherwise. -/
theorem C6_output_bounds (e : AxiomGlobalEngine) (v i1 i2 i3 p pf : ℚ) :
    0 ≤ (analyze_pump e v i1 i2 i3 p pf).imb_pct ∧
    0 ≤ (analyze_pump e v i1 i2 i3 p pf).eff_pump ∧
    (analyze_pump e v i1 i2 i3 p pf).eff_pump ≤ 99.9 ∧
    (shaftE e v i1 i2 i3 pf > 0.1 →
      (analyze_pump e v i1 i2 i3 p pf).eff_pump
        = min 99.9 (hydE v i1 i2 i3 p pf / shaftE e v i1 i2 i3 pf * 100)) ∧
    (¬ shaftE e v i1 i2 i3 pf > 0.1 →
      (analyze_pump e v i1 i2 i3 p pf).eff_pump = 0) := by
  refine ⟨?_, ?_, ?_, fun h => ?_, fun h => ?_⟩
  · rw [ap_imb_pct]
    unfold imbalance_pctOf
    split
    · rename_i ha
      have hmax : (0:ℚ) ≤ max |i1 - avg_ampsOf i1 i2 i3|
          (max |i2 - avg_ampsOf i1 i2 i3| |i3 - avg_ampsOf i1 i2 i3|) :=
        le_trans (abs_nonneg _) (le_max_left _ _)
      exact mul_nonneg (div_nonneg hmax ha.le) (by norm_num)
    · exact le_refl 0
  · rw [ap_eff_pump]
    simp only [peffE, hydE, flowE, shaftE]
    rcases pump_eff_dichotomy (kwE v i1 i2 i3 pf) (loadE e v i1 i2 i3 pf)
        (head_mOf p) with h0 | ⟨_, _, heq⟩
    · rw [h0]
    · rw [heq]
      have := (sixty_div_bounds (loadE e v i1 i2 i3 pf)).1
      linarith
  · rw [ap_eff_pump]
    simp only [peffE, hydE, flowE, shaftE]
    rcases pump_eff_dichotomy (kwE v i1 i2 i3 pf) (loadE e v i1 i2 i3 pf)
        (head_mOf p) with h0 | ⟨_, _, heq⟩
    · rw [h0]; norm_num
    · rw [heq]
      exact (sixty_div_bounds (loadE e v i1 i2 i3 pf)).2.le
  · rw [ap_eff_pump]
    unfold peffE pump_eff_pctOf
    rw [if_pos h]
  · rw [ap_eff_pump]
    unfold peffE pump_eff_pctOf
    rw [if_neg h]

/-- Claim **C6** witness: on the canonical fixture the shaft power exceeds 0.1 kW
and the pump efficiency equals the clamped ratio. -/
theorem C6_output_bounds_witness :
    (analyze_pump (mkEngine 30 280 "Tsh" (2/5)) 415 55 54 56 (21/5) default_pf).eff_pump
      = min 99.9 (hydE 415 55 54 56 (21/5) default_pf
          / shaftE (mkEngine 30 280 "Tsh" (2/5)) 415 55 54 56 default_pf * 100) := by
  have h := C6_output_bounds (mkEngine 30 280 "Tsh" (2/5)) 415 55 54 56 (21/5) default_pf
  exact h.2.2.2.1 (by norm_num [shaftE, shaft_power_kwOf, kwE, real_kw_inOf,
    clampV, avg_ampsOf, est_motor_effOf, loadE, load_percentOf, rated_amps_estOf,
    mkEngine, default_pf])

/-- Claim **C9** (confirmed): whenever the head exceeds 1 m and the shaft power
exceeds 0.1 kW, the pump efficiency equals exactly `60 / motor_eff`
(≈ 70.6 %, 67.4 % or 65.2 % depending only on the load band) and stays
strictly below the 99.9 clamp; a pump efficiency below 45 is always exactly
0, so the POOR EFFICIENCY status can only arise when a guard zeroed the pump
efficiency. -/
theorem C9_pump_eff_rigidity (e : AxiomGlobalEngine) (v i1 i2 i3 p pf : ℚ) :
    (head_mOf p > 1 → shaftE e v i1 i2 i3 pf > 0.1 →
      (analyze_pump e v i1 i2 i3 p pf).eff_pump
          = 60 / est_motor_effOf (loadE e v i1 i2 i3 pf) ∧
        (analyze_pump e v i1 i2 i3 p pf).eff_pump < 99.9) ∧
    ((analyze_pump e v i1 i2 i3 p pf).eff_pump < 45 →
      (analyze_pump e v i1 i2 i3 p pf).eff_pump = 0) ∧
    ((analyze_pump e v i1 i2 i3 p pf).status = "WARNING: POOR EFFICIENCY" →
      ¬ (head_mOf p > 1 ∧ shaftE e v i1 i2 i3 pf > 0.1)) := by
  refine ⟨fun hh hs => ?_, fun h45 => ?_, fun hst hcon => ?_⟩
  · have heq : peffE e v i1 i2 i3 p pf
        = 60 / est_motor_effOf (loadE e v i1 i2 i3 pf) :=
      pump_eff_value (kwE v i1 i2 i3 pf) (loadE e v i1 i2 i3 pf) (head_mOf p) hh hs
    rw [ap_eff_pump, heq]
    exact ⟨rfl, (sixty_div_bounds _).2⟩
  · rw [ap_eff_pump] at h45 ⊢
    simp only [peffE, hydE, flowE, shaftE] at h45 ⊢
    rcases pump_eff_dichotomy (kwE v i1 i2 i3 pf) (loadE e v i1 i2 i3 pf)
        (head_mOf p) with h0 | ⟨_, _, heq⟩
    · exact h0
    · rw [heq] at h45
      have := (sixty_div_bounds (loadE e v i1 i2 i3 pf)).1
      linarith
  · obtain ⟨hh, hs⟩ := hcon
    rw [ap_status] at hst
    have h45 := classify_poor _ _ _ _ _ _ hst
    have heq : peffE e v i1 i2 i3 p pf
        = 60 / est_motor_effOf (loadE e v i1 i2 i3 pf) :=
      pump_eff_value (kwE v i1 i2 i3 pf) (loadE e v i1 i2 i3 pf) (head_mOf p) hh hs
    rw [heq] at h45
    have := (sixty_div_bounds (loadE e v i1 i2 i3 pf)).1
    linarith

/-- Claim **C9** witness: on the canonical fixture (load band `> 110`,
motor_eff 0.89) the pump efficiency is exactly `60 / 0.89 = 6000/89`. -/
theorem C9_pump_eff_rigidity_witness :
    (analyze_pump (mkEngine 30 280 "Tsh" (2/5)) 415 55 54 56 (21/5) default_pf).eff_pump
      = 6000/89 := by
  have h := (C9_pump_eff_rigidity (mkEngine 30 280 "Tsh" (2/5)) 415 55 54 56
      (21/5) default_pf).1
    (by norm_num [head_mOf])
    (by norm_num [shaftE, shaft_power_kwOf, kwE, real_kw_inOf, clampV,
      avg_ampsOf, est_motor_effOf, loadE, load_percentOf, rated_amps_estOf,
      mkEngine, default_pf])
  rw [h.1]
  norm_num [loadE, load_percentOf, rated_amps_estOf, clampV, avg_ampsOf,
    mkEngine, default_pf, est_motor_effOf]

/-- Claim **C10** (confirmed): the stored unit cost is `abs(cost_per_unit)` — a
negative tariff is silently made positive, and the monthly cost is
`real_kW × |cost_per_unit| × 720` — while the CO2 factor is stored
unchanged, so a negative CO2 factor yields a negative monthly CO2 figure on
any reading with positive input power. -/
theorem C10_cost_abs_co2_signed (rated cost : ℚ) (curr : String)
    (co2 v i1 i2 i3 p pf : ℚ) :
    (mkEngine rated cost curr co2).UNIT_COST = |cost| ∧
    (mkEngine rated cost curr co2).CO2_FACTOR = co2 ∧
    (analyze_pump (mkEngine rated cost curr co2) v i1 i2 i3 p pf).cost_mo
      = (analyze_pump (mkEngine rated cost curr co2) v i1 i2 i3 p pf).kw
        * |cost| * 720 ∧
    (co2 < 0 →
      0 < (analyze_pump (mkEngine rated cost curr co2) v i1 i2 i3 p pf).kw →
      (analyze_pump (mkEngine rated cost curr co2) v i1 i2 i3 p pf).co2_ton < 0) := by
  refine ⟨rfl, rfl, ?_, fun hco2 hkw => ?_⟩
  · rw [ap_cost_mo, ap_kw]
    have hu : (mkEngine rated cost curr co2).UNIT_COST = |cost| := rfl
    rw [hu]
    ring
  · rw [ap_co2_ton]
    rw [ap_kw] at hkw
    have hc : (mkEngine rated cost curr co2).CO2_FACTOR = co2 := rfl
    rw [hc]
    have h1 : kwE v i1 i2 i3 pf * co2 * 24 * 30 < 0 := by nlinarith
    exact div_neg_of_neg_of_pos h1 (by norm_num)

/-- Claim **C10** witness: tariff `−280` is stored as `280`; CO2 factor `−0.4`
with the fixture's positive 33.6 kW draw yields a negative monthly CO2. -/
theorem C10_cost_abs_co2_signed_witness :
    (mkEngine 30 (-280) "Tsh" (-(2/5))).UNIT_COST = 280 ∧
    (analyze_pump (mkEngine 30 (-280) "Tsh" (-(2/5))) 415 55 54 56 (21/5) default_pf).co2_ton
      < 0 := by
  have h := C10_cost_abs_co2_signed 30 (-280) "Tsh" (-(2/5)) 415 55 54 56 (21/5) default_pf
  refine ⟨?_, h.2.2.2 (by norm_num)
    (by rw [ap_kw]; norm_num [kwE, real_kw_inOf, clampV, avg_ampsOf, default_pf])⟩
  rw [h.1]
  norm_num

end AxiomAudit
